import Mathlib

/-!
Verification of the smart-security-system orchestration core.

This file gives a shallow embedding of the pieces of the repository that the
checked properties are about:

* `src/detection/yolo_detector.py` — detection types, alert levels and
  `_determine_alert_level`;
* `src/alerts/alert_manager.py` — the `Alert` priority model, the
  `AlertManager` state, its consumer loop `_process_loop`, cooldown logic,
  `clear_queue` and `stop`;
* `src/core/system_manager.py` — the `SystemState` machine, `arm`,
  `trigger_alarm`, `_process_detection` and `_detection_loop`;
* `src/hardware/camera.py` — `Camera.start` / `_try_camera` device probing.

Machine integers of the source are modelled by `Nat`/`Int`; wall-clock
timestamps (`time.time()`, `datetime.now()`) are explicit `Int` parameters
threaded through the loops; fallible calls are modelled with `Except`.
Threads are modelled by making each loop a function over the list of
per-iteration environment inputs (frame availability, classifier outputs,
timestamps, delivery success), which is the standard shallow embedding of a
cooperative loop whose only interaction with the world happens at its
suspension points.
-/

namespace SmartSecurity

/-! ### Detection data model (`src/detection/yolo_detector.py`) -/

/-- Enum `DetectionType` of `yolo_detector.py`. -/
inductive DetectionType
  | NONE
  | PERSON
  | ANIMAL
  | BOTH
  deriving DecidableEq, Repr

/-- Enum `AlertLevel` of `yolo_detector.py`: NONE=0, LOW=1, HIGH=2, CRITICAL=3. -/
inductive AlertLevel
  | NONE
  | LOW
  | HIGH
  | CRITICAL
  deriving DecidableEq, Repr

/-- Numeric value of each `AlertLevel` member, as declared in the Python enum. -/
def AlertLevel.value : AlertLevel → Nat
  | .NONE => 0
  | .LOW => 1
  | .HIGH => 2
  | .CRITICAL => 3

/-- Translation of `YOLODetector._determine_alert_level(person_count, animal_count)`. -/
def determineAlertLevel (personCount animalCount : Nat) : AlertLevel :=
  if personCount > 0 ∧ animalCount = 0 then .CRITICAL
  else if personCount > 0 ∧ animalCount > 0 then .HIGH
  else if personCount = 0 ∧ animalCount > 0 then .LOW
  else .NONE

/-- Step 5 of `YOLODetector.detect`: the detection type computed from the counts. -/
def detectionTypeOf (personCount animalCount : Nat) : DetectionType :=
  if personCount > 0 ∧ animalCount > 0 then .BOTH
  else if personCount > 0 then .PERSON
  else if animalCount > 0 then .ANIMAL
  else .NONE

/-- Result dictionary returned by `YOLODetector.detect` (the fields the
orchestration layer reads; the bounding-box list and annotated frame are
opaque to the properties checked here). -/
structure DetectionResult where
  type : DetectionType
  alertLevel : AlertLevel
  personCount : Nat
  animalCount : Nat
  deriving DecidableEq, Repr

/-- Steps 5-6 and 9 of `YOLODetector.detect`: assemble the result dictionary
from the person/animal counts parsed out of the model output. -/
def mkDetectionResult (personCount animalCount : Nat) : DetectionResult :=
  { type := detectionTypeOf personCount animalCount
    alertLevel := determineAlertLevel personCount animalCount
    personCount := personCount
    animalCount := animalCount }

/-! ### Alert queue model (`src/alerts/alert_manager.py`) -/

/-- Python exception kinds raised by the embedded code. -/
inductive PyError
  | attributeError
  deriving DecidableEq, Repr

/-- The `Alert` class: level, message, optional frame (opaque id), creation
timestamp, and `priority = level.value` as set in `Alert.__init__`. -/
structure Alert where
  level : AlertLevel
  message : String
  frame : Option Nat
  timestamp : Int
  priority : Nat
  deriving DecidableEq, Repr

/-- Constructor `Alert.__init__`: `now` models `datetime.now()`. -/
def Alert.make (level : AlertLevel) (message : String) (frame : Option Nat)
    (now : Int) : Alert :=
  { level := level, message := message, frame := frame, timestamp := now
    priority := level.value }

/-- Model of `queue.PriorityQueue.get` on the manager's queue. CPython's
priority queue is a binary min-heap ordered by `Alert.__lt__`, and
`Alert.__lt__(a, b)` is `a.priority > b.priority`, so `get` always removes an
alert whose `priority` is maximal among the pending ones. Which of several
equal-priority alerts is removed is heap-layout dependent and not guaranteed
by CPython; this model removes the leftmost maximal one (the theorems below
only use maximality, matching the guarantee of the source). -/
def popMax : List Alert → Option (Alert × List Alert)
  | [] => none
  | a :: rest =>
    match popMax rest with
    | none => some (a, [])
    | some (b, restMinus) =>
      if a.priority < b.priority then some (b, a :: restMinus) else some (a, rest)

/-- State of an `AlertManager` object.  `queueItems` is the content of
`self.queue`; `threadSpawned`/`threadAlive` model
`self.processing_thread is not None` and `processing_thread.is_alive()`;
`threadStarts` counts how many processing threads were ever started
(instrumentation used only to state theorems). -/
structure AlertManager where
  telegramBot : Bool
  cooldown : Int
  queueItems : List Alert
  threadSpawned : Bool
  threadAlive : Bool
  stopEventSet : Bool
  lastAlertTime : Option Int
  alertCount : Nat
  alertsSent : Nat
  alertsDropped : Nat
  threadStarts : Nat
  deriving DecidableEq, Repr

/-- Constructor `AlertManager.__init__`. -/
def AlertManager.create (telegramBot : Bool) (cooldown : Int) : AlertManager :=
  { telegramBot := telegramBot, cooldown := cooldown, queueItems := []
    threadSpawned := false, threadAlive := false, stopEventSet := false
    lastAlertTime := none, alertCount := 0, alertsSent := 0
    alertsDropped := 0, threadStarts := 0 }

/-- Method `AlertManager.start`. The source's comment says "Clear stop event"
but no `self.stop_event.clear()` call exists, so the event keeps whatever
value it had. The spawned loop checks the event at its head, so it is alive
after `start` only if the event is not set. -/
def AlertManager.start (m : AlertManager) : AlertManager :=
  if m.threadSpawned ∧ m.threadAlive then m
  else
    { m with threadSpawned := true, threadAlive := ¬m.stopEventSet
             threadStarts := m.threadStarts + 1 }

/-- Method `AlertManager.add_alert`: build the `Alert` and `queue.put` it
(`put` on an unbounded priority queue never blocks; in the list model it
appends), then increment `alert_count`. -/
def AlertManager.addAlert (m : AlertManager) (level : AlertLevel)
    (message : String) (frame : Option Nat) (now : Int) : AlertManager :=
  { m with queueItems := m.queueItems ++ [Alert.make level message frame now]
           alertCount := m.alertCount + 1 }

/-- Method `AlertManager._is_in_cooldown` at wall-clock time `now`. -/
def AlertManager.isInCooldown (m : AlertManager) (now : Int) : Bool :=
  match m.lastAlertTime with
  | none => false
  | some t => now - t < m.cooldown

/-- Method `AlertManager._time_until_next_alert` at wall-clock time `now`. -/
def AlertManager.timeUntilNextAlert (m : AlertManager) (now : Int) : Int :=
  match m.lastAlertTime with
  | none => 0
  | some t => max 0 (m.cooldown - (now - t))

/-- Environment of one iteration of `_process_loop`: `checkNow` is the clock
at the `_is_in_cooldown` check, `sendNow` the clock when `_send_alert`
records a successful delivery (`datetime.now()` inside `_send_alert`), and
`sendOk` whether `telegram_bot.send_alert` reported success. -/
structure ProcEnv where
  checkNow : Int
  sendNow : Int
  sendOk : Bool
  deriving DecidableEq, Repr

/-- One iteration of the body of `AlertManager._process_loop` (the part after
the `stop_event` check). Returns the new manager state and, when a delivery
succeeded, the `(level, timestamp)` of the delivered alert. -/
def AlertManager.procStep (m : AlertManager) (e : ProcEnv) :
    AlertManager × Option (AlertLevel × Int) :=
  match popMax m.queueItems with
  | none => (m, none)
  | some (alert, rest) =>
    if m.isInCooldown e.checkNow then
      ({ m with queueItems := rest ++ [alert] }, none)
    else
      if m.telegramBot then
        if e.sendOk then
          ({ m with queueItems := rest, lastAlertTime := some e.sendNow
                    alertsSent := m.alertsSent + 1 },
           some (alert.level, e.sendNow))
        else
          ({ m with queueItems := rest, alertsDropped := m.alertsDropped + 1 },
           none)
      else
        ({ m with queueItems := rest, alertsDropped := m.alertsDropped + 1 },
         none)

/-- The loop `AlertManager._process_loop`, folded over the per-iteration
environments. The `stop_event` check at the loop head terminates the run;
the second component collects the successful deliveries in order. -/
def AlertManager.procRun : AlertManager → List ProcEnv →
    AlertManager × List (AlertLevel × Int)
  | m, [] => (m, [])
  | m, e :: es =>
    if m.stopEventSet then (m, [])
    else
      let s := m.procStep e
      let r := procRun s.1 es
      (r.1, (match s.2 with | none => r.2 | some d => d :: r.2))

/-- Python attribute dispatch for `Nat`-returning zero-argument methods of the
queue object. `queue.PriorityQueue` has a method `qsize`; any other name
raises `AttributeError`. -/
def queueMethodNat (items : List Alert) : String → Except PyError Nat
  | "qsize" => .ok items.length
  | _ => .error .attributeError

/-- Method `AlertManager.clear_queue`. The source reads
`count = self.queue.qszie()` — the name `qszie` does not exist on the queue
object, so the call raises `AttributeError` before the queue is replaced. -/
def AlertManager.clearQueue (m : AlertManager) :
    Except PyError (AlertManager × Nat) := do
  let count ← queueMethodNat m.queueItems "qszie"
  .ok ({ m with queueItems := [] }, count)

/-- Final statistics of `AlertManager.get_statistics` (the integer counters;
the percentage `send_rate` is a float and is not needed by any property). -/
structure AlertStats where
  alertCount : Nat
  alertsSent : Nat
  alertsDropped : Nat
  queueSize : Nat
  deriving DecidableEq, Repr

/-- Method `AlertManager.get_statistics` (integer part). -/
def AlertManager.getStatistics (m : AlertManager) : AlertStats :=
  { alertCount := m.alertCount, alertsSent := m.alertsSent
    alertsDropped := m.alertsDropped, queueSize := m.queueItems.length }

/-- Method `AlertManager.stop`: set the stop event, join the processing
thread (which exits at its next loop-head check, hence `threadAlive := false`),
then call `clear_queue` and report statistics. Python state mutations made
before an exception persist, so the result is the mutated state together with
the outcome: `.ok` carries the cleared count and the final statistics,
`.error` the exception that propagated out of `stop`. -/
def AlertManager.stop (m : AlertManager) :
    AlertManager × Except PyError (Nat × AlertStats) :=
  let m1 := { m with stopEventSet := true, threadAlive := false }
  match m1.clearQueue with
  | .error e => (m1, .error e)
  | .ok (m2, cleared) => (m2, .ok (cleared, m2.getStatistics))

/-! ### System manager model (`src/core/system_manager.py`) -/

/-- Enum `SystemState` of `system_manager.py`. -/
inductive SystemState
  | DISARMED
  | ARMED
  | ALARM
  | ERROR
  deriving DecidableEq, Repr

/-- String value of each `SystemState` member, as declared in the Python enum
and reported by `get_status()["state"]`. -/
def SystemState.value : SystemState → String
  | .DISARMED => "disarmed"
  | .ARMED => "armed"
  | .ALARM => "alarm"
  | .ERROR => "error"

/-- LED panel mode as driven by `led_controller.set_armed` / `set_alarm` /
`turn_off_all` (the controller is optional hardware). -/
inductive LedMode
  | off
  | armedGreen
  | alarmRed
  deriving DecidableEq, Repr

/-- The frame published as `latest_annotated_frame`: either a raw camera
frame, a copy with YOLO boxes drawn by `_draw_yolo_detections`, or the
annotated frame returned by the face-recognition detector. Camera frames are
opaque ids. -/
inductive ViewFrame
  | raw (f : Nat)
  | yoloDrawn (f : Nat)
  | faceDrawn (g : Nat)
  deriving DecidableEq, Repr

/-- Result dictionary of `FaceRecognitionDetector.detect` (the keys the
detection loop reads). `frame` is the annotated frame id when drawing
produced one. -/
structure IdentityResult where
  authorizedPersonDetected : Bool
  authorizedNames : List String
  unknownCount : Nat
  frame : Option Nat
  deriving DecidableEq, Repr

/-- State of a `SystemManager` object. Optional collaborators
(`led_controller`, `pir_sensor`, `buzzer`, `alert_manager`, `telegram_bot`,
`face_detector`) are modelled by presence flags, matching the `if self.x:`
guards of the source; `yoloLoaded` models
`self.yolo_detector and self.yolo_detector.model_loaded`.
`detectionThreads` counts detection threads started, and `alarmTriggers` /
`processDetectionCalls` count calls of `trigger_alarm` /
`_process_detection` (instrumentation used only to state theorems). -/
structure SystemManager where
  state : SystemState
  stopEventSet : Bool
  yoloLoaded : Bool
  faceDetector : Bool
  ledController : Bool
  pirSensor : Bool
  buzzerPresent : Bool
  alertManager : Bool
  telegramBot : Bool
  ledMode : LedMode
  buzzerOn : Bool
  pirRunning : Bool
  latestAnnotated : Option ViewFrame
  lastPersonSnapshotTime : Int
  lastAnimalSnapshotTime : Int
  snapshotCooldown : Int
  personSnapshots : Nat
  animalSnapshots : Nat
  totalDetections : Nat
  personDetections : Nat
  animalDetections : Nat
  detectionThreads : Nat
  alarmTriggers : Nat
  processDetectionCalls : Nat
  telegramSends : Nat
  deriving DecidableEq, Repr

/-- Method `SystemManager.get_status`, restricted to the `"state"` entry of
the returned dictionary (`self.state.value`). -/
def SystemManager.getStatusState (m : SystemManager) : String :=
  m.state.value

/-- Method `SystemManager.trigger_alarm`: sets `self.state = SystemState.ALARM`
unconditionally, then drives the red LED and the buzzer when present. -/
def SystemManager.triggerAlarm (m : SystemManager) : SystemManager :=
  let m := { m with state := SystemState.ALARM
                    alarmTriggers := m.alarmTriggers + 1 }
  let m := if m.ledController then { m with ledMode := .alarmRed } else m
  if m.buzzerPresent then { m with buzzerOn := true } else m

/-- Method `SystemManager.clear_alarm`: sets the state back to `ARMED` and
resets the indicators. -/
def SystemManager.clearAlarm (m : SystemManager) : SystemManager :=
  let m := { m with state := SystemState.ARMED }
  let m := if m.ledController then { m with ledMode := .armedGreen } else m
  if m.buzzerPresent then { m with buzzerOn := false } else m

/-- Method `SystemManager.arm`. Returns the new state and the boolean result.
If already `ARMED` it logs and returns `True` without touching anything.
Otherwise it sets the state, drives the optional indicators, and starts the
detection thread iff the YOLO detector is present and loaded (otherwise it
logs "detection disabled" and stays armed). -/
def SystemManager.arm (m : SystemManager) : SystemManager × Bool :=
  if m.state = SystemState.ARMED then (m, true)
  else
    let m := { m with state := SystemState.ARMED }
    let m := if m.ledController then { m with ledMode := .armedGreen } else m
    let m := if m.pirSensor then { m with pirRunning := true } else m
    if m.yoloLoaded then
      ({ m with stopEventSet := false
                detectionThreads := m.detectionThreads + 1 }, true)
    else (m, true)

/-- Method `SystemManager._process_detection(frame, detection_result)` at
wall-clock time `now` (`time.time()`). Statistics are updated first; a
PERSON/BOTH result triggers the alarm, attempts a cooldown-gated person
snapshot, and notifies; an ANIMAL result only attempts the (3x cooldown)
animal snapshot. When `alert_manager` is present the source calls
`self.alert_manager.queue_alert(...)`, a method that does not exist on
`AlertManager` — the `AttributeError` is caught by this method's own
`try/except`, so the following Telegram send is skipped in that case. -/
def SystemManager.processDetection (m : SystemManager) (r : DetectionResult)
    (now : Int) : SystemManager :=
  let m := { m with processDetectionCalls := m.processDetectionCalls + 1
                    totalDetections := m.totalDetections + 1
                    personDetections := m.personDetections +
                      (if r.personCount > 0 then r.personCount else 0)
                    animalDetections := m.animalDetections +
                      (if r.animalCount > 0 then r.animalCount else 0) }
  if r.type = DetectionType.PERSON ∨ r.type = DetectionType.BOTH then
    let m := m.triggerAlarm
    let m :=
      if now - m.lastPersonSnapshotTime ≥ m.snapshotCooldown then
        { m with lastPersonSnapshotTime := now
                 personSnapshots := m.personSnapshots + 1 }
      else m
    if m.alertManager then m
    else if m.telegramBot then { m with telegramSends := m.telegramSends + 1 }
    else m
  else if r.type = DetectionType.ANIMAL then
    if now - m.lastAnimalSnapshotTime ≥ m.snapshotCooldown * 3 then
      { m with lastAnimalSnapshotTime := now
               animalSnapshots := m.animalSnapshots + 1 }
    else m
  else m

/-- Environment of one iteration of `_detection_loop`: the frame pulled from
the camera (`none` when the camera is closed or `get_frame` timed out), the
person/animal counts the YOLO model reports on that frame, the
face-recognition result found in `face_recognition_results[frame_id]` after
the 3-second `join` (`none` when the background thread had not deposited
one), and the iteration's wall-clock time. -/
structure IterInput where
  frame : Option Nat
  personCount : Nat
  animalCount : Nat
  identity : Option IdentityResult
  now : Int
  deriving DecidableEq, Repr

/-- Body of one armed iteration of `SystemManager._detection_loop` (steps 1-4
of the loop, after the state gate). Returns the new manager, the new
`consecutive_empty_frames` counter, and whether the iteration executed the
`break` that stops the loop. -/
def SystemManager.detectionIter (m : SystemManager) (consecutiveEmpty : Nat)
    (inp : IterInput) : SystemManager × Nat × Bool :=
  match inp.frame with
  | none =>
    let c := consecutiveEmpty + 1
    if c ≥ 10 then (m, c, true) else (m, c, false)
  | some fr =>
    let c := 0
    if m.yoloLoaded then
      let r := mkDetectionResult inp.personCount inp.animalCount
      if r.type ≠ DetectionType.NONE then
        if r.personCount > 0 ∧ m.faceDetector then
          match inp.identity with
          | some faceResult =>
            let m :=
              match faceResult.frame with
              | some fa => { m with latestAnnotated := some (.faceDrawn fa) }
              | none => m
            if faceResult.authorizedPersonDetected then (m, c, false)
            else (m.processDetection r inp.now, c, false)
          | none =>
            let m := { m with latestAnnotated := some (.yoloDrawn fr) }
            (m.processDetection r inp.now, c, false)
        else (m.processDetection r inp.now, c, false)
      else
        if r.animalCount > 0 then
          ({ m with latestAnnotated := some (.yoloDrawn fr) }, c, false)
        else ({ m with latestAnnotated := some (.raw fr) }, c, false)
    else (m, c, false)

/-- The loop `SystemManager._detection_loop`, folded over the per-iteration
environments. Each iteration first checks the stop event, then the state
gate (not `ARMED`/`ALARM` means sleep and re-check), then runs the body;
a `break` from the body ends the run. -/
def SystemManager.detectionRun :
    SystemManager → Nat → List IterInput → SystemManager
  | m, _, [] => m
  | m, c, inp :: rest =>
    if m.stopEventSet then m
    else if m.state ≠ SystemState.ARMED ∧ m.state ≠ SystemState.ALARM then
      detectionRun m c rest
    else
      let s := m.detectionIter c inp
      if s.2.2 then s.1 else detectionRun s.1 s.2.1 rest

/-! ### Camera model (`src/hardware/camera.py`) -/

/-- Behaviour of the capture device at one index: whether
`cv2.VideoCapture(index)` opens, and whether a test `read()` returns a
frame. -/
structure Device where
  opens : Bool
  reads : Bool
  deriving DecidableEq, Repr

/-- State of a `Camera` object (the fields `start` touches). -/
structure Camera where
  cameraIndex : Nat
  captureOpen : Bool
  threadStarted : Bool
  deriving DecidableEq, Repr

/-- Method `Camera._try_camera(index)`: succeed iff the device at `index`
opens and a test frame reads, in which case `self.capture` is reopened on the
same device (modelled as deterministic, so the reopen succeeds too). -/
def tryCamera (env : Nat → Device) (index : Nat) : Bool :=
  (env index).opens && (env index).reads

/-- Method `Camera._finalize_start`: set capture properties and start the
producer thread; always returns `True`. -/
def Camera.finalizeStart (cam : Camera) : Camera × Bool :=
  ({ cam with threadStarted := true }, true)

/-- The auto-detection loop of `Camera.start`: `for index in range(5)`,
skipping the configured index already tried, accepting the first index where
`_try_camera` succeeds and recording it in `self.camera_index`. -/
def Camera.probeLoop (env : Nat → Device) (cam : Camera) :
    List Nat → Camera × Bool
  | [] => (cam, false)
  | i :: rest =>
    if i = cam.cameraIndex then probeLoop env cam rest
    else if tryCamera env i then
      Camera.finalizeStart { cam with cameraIndex := i, captureOpen := true }
    else probeLoop env cam rest

/-- Method `Camera.start`: try the configured index first, then probe
indices 0..4; return `False` only when every probe failed. -/
def Camera.start (env : Nat → Device) (cam : Camera) : Camera × Bool :=
  if tryCamera env cam.cameraIndex then
    Camera.finalizeStart { cam with captureOpen := true }
  else cam.probeLoop env [0, 1, 2, 3, 4]

/-! ### Concrete fixtures used by witnesses and counterexamples -/

/-- State of a freshly constructed `SystemManager()` (`__init__`): state
DISARMED, no collaborators yet, all counters zero, snapshot cooldown 10. -/
def SystemManager.fresh : SystemManager :=
  { state := .DISARMED, stopEventSet := false, yoloLoaded := false
    faceDetector := false, ledController := false, pirSensor := false
    buzzerPresent := false, alertManager := false, telegramBot := false
    ledMode := .off, buzzerOn := false, pirRunning := false
    latestAnnotated := none, lastPersonSnapshotTime := 0
    lastAnimalSnapshotTime := 0, snapshotCooldown := 10
    personSnapshots := 0, animalSnapshots := 0, totalDetections := 0
    personDetections := 0, animalDetections := 0, detectionThreads := 0
    alarmTriggers := 0, processDetectionCalls := 0, telegramSends := 0 }

/-- An armed manager with both detectors available, as after
`initialize()` + `arm()` with loaded models. -/
def armedMgr : SystemManager :=
  { SystemManager.fresh with
    state := .ARMED, yoloLoaded := true, faceDetector := true
    detectionThreads := 1 }

/-- Ten consecutive detection-loop iterations whose `get_frame` call timed
out (the camera returned no frame). -/
def tenTimeouts : List IterInput :=
  List.replicate 10
    { frame := none, personCount := 0, animalCount := 0, identity := none
      now := 0 }

/-- A detection-loop iteration that sees one person and no deposited
face-recognition result (the 3-second join elapsed). -/
def c2Inp : IterInput :=
  { frame := some 7, personCount := 1, animalCount := 0, identity := none
    now := 100 }

/-- The §8 priority scenario: an `AlertManager` (cooldown 30, bot configured)
after enqueueing alerts with levels LOW, CRITICAL, LOW in that order. -/
def c8Manager : AlertManager :=
  (((AlertManager.create true 30).addAlert .LOW "animal seen" none 0).addAlert
      .CRITICAL "person seen" none 1).addAlert .LOW "animal seen again" none 2

/-- Consumer-loop iteration environment with no cooldown pressure and a
successful delivery. -/
def c8Env : ProcEnv := { checkNow := 10, sendNow := 10, sendOk := true }

/-- An `AlertManager` that is inside its cooldown window: last delivery at
time 0, cooldown 30, one LOW alert pending. -/
def c3CoolMgr : AlertManager :=
  { ((AlertManager.create true 30).addAlert .LOW "animal seen" none 3) with
    lastAlertTime := some 0 }

/-- Consumer-loop iteration environment taken at time 5, inside the
30-second cooldown that started at time 0. -/
def c3Env : ProcEnv := { checkNow := 5, sendNow := 5, sendOk := true }

/-- Capture-device environment in which only index 2 opens and reads. -/
def c9Env : Nat → Device :=
  fun i => if i = 2 then { opens := true, reads := true }
           else { opens := false, reads := false }

/-- Camera object configured for device index 0 (the settings default). -/
def c9Cam : Camera :=
  { cameraIndex := 0, captureOpen := false, threadStarted := false }

/-! ### Helper lemmas -/

/-- After `trigger_alarm` the state is `ALARM`, whatever it was before. -/
lemma triggerAlarm_state (m : SystemManager) :
    m.triggerAlarm.state = SystemState.ALARM := by
  unfold SystemManager.triggerAlarm
  dsimp only
  split <;> split <;> rfl

/-- Each `trigger_alarm` call increments the call counter by one. -/
lemma triggerAlarm_triggers (m : SystemManager) :
    m.triggerAlarm.alarmTriggers = m.alarmTriggers + 1 := by
  unfold SystemManager.triggerAlarm
  dsimp only
  split <;> split <;> rfl

/-- Fields of the manager that `trigger_alarm` leaves untouched. -/
@[simp] lemma triggerAlarm_fields (m : SystemManager) :
    m.triggerAlarm.processDetectionCalls = m.processDetectionCalls ∧
    m.triggerAlarm.lastPersonSnapshotTime = m.lastPersonSnapshotTime ∧
    m.triggerAlarm.lastAnimalSnapshotTime = m.lastAnimalSnapshotTime ∧
    m.triggerAlarm.snapshotCooldown = m.snapshotCooldown ∧
    m.triggerAlarm.alertManager = m.alertManager ∧
    m.triggerAlarm.telegramBot = m.telegramBot ∧
    m.triggerAlarm.personSnapshots = m.personSnapshots ∧
    m.triggerAlarm.telegramSends = m.telegramSends ∧
    m.triggerAlarm.totalDetections = m.totalDetections := by
  unfold SystemManager.triggerAlarm
  dsimp only
  split <;> split <;> simp

/-- Each `_process_detection` call increments the call counter by one. -/
lemma processDetection_calls (m : SystemManager) (r : DetectionResult)
    (now : Int) :
    (m.processDetection r now).processDetectionCalls =
      m.processDetectionCalls + 1 := by
  unfold SystemManager.processDetection
  dsimp only
  split_ifs <;> simp [(triggerAlarm_fields _).1]

/-- On a PERSON or BOTH result, `_process_detection` triggers the alarm:
the counter increments and the state is `ALARM` afterwards. -/
lemma processDetection_alarm (m : SystemManager) (r : DetectionResult)
    (now : Int) (h : r.type = DetectionType.PERSON ∨ r.type = DetectionType.BOTH) :
    (m.processDetection r now).alarmTriggers = m.alarmTriggers + 1 ∧
    (m.processDetection r now).state = SystemState.ALARM := by
  unfold SystemManager.processDetection
  dsimp only
  rw [if_pos h]
  split_ifs <;> simp [triggerAlarm_triggers, triggerAlarm_state]

/-- After `arm` the state is always `ARMED`. -/
lemma arm_state (m : SystemManager) : (m.arm).1.state = SystemState.ARMED := by
  unfold SystemManager.arm
  dsimp only
  split_ifs with h <;> simp_all

/-- One `arm` call starts at most one detection thread. -/
lemma arm_threads (m : SystemManager) :
    (m.arm).1.detectionThreads ≤ m.detectionThreads + 1 := by
  unfold SystemManager.arm
  dsimp only
  split_ifs <;> simp

/-- Method `arm` always reports success. -/
lemma arm_result (m : SystemManager) : (m.arm).2 = true := by
  unfold SystemManager.arm
  dsimp only
  split_ifs <;> rfl

/-- Calling `arm` on an already-armed manager changes nothing and reports
success. -/
lemma arm_of_armed (m : SystemManager) (h : m.state = SystemState.ARMED) :
    m.arm = (m, true) := by
  unfold SystemManager.arm
  rw [if_pos h]

/-- With no usable YOLO detector, `arm` does not start a detection thread. -/
lemma arm_threads_noYolo (m : SystemManager) (h : m.yoloLoaded = false) :
    (m.arm).1.detectionThreads = m.detectionThreads := by
  unfold SystemManager.arm
  dsimp only
  split_ifs <;> simp_all

/-- A positive person count makes the detection type PERSON or BOTH. -/
lemma detectionTypeOf_person (p a : Nat) (hp : 0 < p) :
    detectionTypeOf p a = DetectionType.PERSON ∨
    detectionTypeOf p a = DetectionType.BOTH := by
  unfold detectionTypeOf
  rcases Nat.eq_zero_or_pos a with h | h <;> simp_all

/-- Escalation lemma for one detection-loop iteration: a frame with a person
on it and either no face-recognition result within the timeout or a result
reporting a non-authorized person leads to `_process_detection` and the
alarm. -/
lemma detectionIter_escalates (m : SystemManager) (c : Nat) (inp : IterInput)
    (fr : Nat) (hyolo : m.yoloLoaded = true) (hframe : inp.frame = some fr)
    (hperson : 0 < inp.personCount)
    (hesc : inp.identity = none ∨
      ∃ r, inp.identity = some r ∧ r.authorizedPersonDetected = false) :
    (m.detectionIter c inp).1.alarmTriggers = m.alarmTriggers + 1 ∧
    (m.detectionIter c inp).1.processDetectionCalls =
      m.processDetectionCalls + 1 ∧
    (m.detectionIter c inp).1.state = SystemState.ALARM := by
  have htype := detectionTypeOf_person inp.personCount inp.animalCount hperson
  have htype' : (mkDetectionResult inp.personCount inp.animalCount).type =
      DetectionType.PERSON ∨
      (mkDetectionResult inp.personCount inp.animalCount).type =
      DetectionType.BOTH := htype
  have hne : ¬((mkDetectionResult inp.personCount inp.animalCount).type =
      DetectionType.NONE) := by
    rcases htype' with h | h <;> rw [h] <;> simp
  unfold SystemManager.detectionIter
  rw [hframe]
  dsimp only
  rw [hyolo, if_pos rfl, if_pos hne]
  by_cases hface : m.faceDetector = true
  · rw [if_pos ⟨hperson, hface⟩]
    rcases hesc with hid | ⟨r0, hid, hauth⟩
    · rw [hid]
      dsimp only
      exact ⟨(processDetection_alarm _ _ _ htype').1,
             processDetection_calls _ _ _,
             (processDetection_alarm _ _ _ htype').2⟩
    · rw [hid]
      dsimp only
      cases hr0 : r0.frame with
      | none =>
        rw [hauth]
        exact ⟨(processDetection_alarm _ _ _ htype').1,
               processDetection_calls _ _ _,
               (processDetection_alarm _ _ _ htype').2⟩
      | some fa =>
        rw [hauth]
        exact ⟨(processDetection_alarm _ _ _ htype').1,
               processDetection_calls _ _ _,
               (processDetection_alarm _ _ _ htype').2⟩
  · rw [if_neg (by simp [hface])]
    exact ⟨(processDetection_alarm _ _ _ htype').1,
           processDetection_calls _ _ _,
           (processDetection_alarm _ _ _ htype').2⟩

/-- Suppression lemma: with a person on the frame, `_process_detection` is
skipped only on an in-time face-recognition result reporting an authorized
person. -/
lemma detectionIter_suppress (m : SystemManager) (c : Nat) (inp : IterInput)
    (fr : Nat) (hyolo : m.yoloLoaded = true) (hframe : inp.frame = some fr)
    (hperson : 0 < inp.personCount)
    (hskip : (m.detectionIter c inp).1.processDetectionCalls =
      m.processDetectionCalls) :
    ∃ r, inp.identity = some r ∧ r.authorizedPersonDetected = true := by
  cases hid : inp.identity with
  | none =>
    have := (detectionIter_escalates m c inp fr hyolo hframe hperson
      (Or.inl hid)).2.1
    omega
  | some r0 =>
    cases hauth : r0.authorizedPersonDetected with
    | false =>
      have := (detectionIter_escalates m c inp fr hyolo hframe hperson
        (Or.inr ⟨r0, hid, hauth⟩)).2.1
      omega
    | true => exact ⟨r0, rfl, hauth⟩

/-! ### Claims -/

/-- C6 (confirmed). The alert level computed by the primary classifier is a
pure function of the pair of flags `(PersonCount > 0, AnimalCount > 0)`, with
both positive giving HIGH, person only CRITICAL, animal only LOW and neither
NONE; `detect` stores exactly this level in its result. -/
theorem c6_alert_level_pure (p a q b : Nat)
    (hp : 0 < p ↔ 0 < q) (ha : 0 < a ↔ 0 < b) :
    determineAlertLevel p a = determineAlertLevel q b ∧
    (mkDetectionResult p a).alertLevel = determineAlertLevel p a ∧
    (0 < p → 0 < a → determineAlertLevel p a = AlertLevel.HIGH) ∧
    (0 < p → a = 0 → determineAlertLevel p a = AlertLevel.CRITICAL) ∧
    (p = 0 → 0 < a → determineAlertLevel p a = AlertLevel.LOW) ∧
    (p = 0 → a = 0 → determineAlertLevel p a = AlertLevel.NONE) := by
  unfold determineAlertLevel mkDetectionResult
  rcases Nat.eq_zero_or_pos p with hp0 | hp0 <;>
    rcases Nat.eq_zero_or_pos a with ha0 | ha0 <;>
    rcases Nat.eq_zero_or_pos q with hq0 | hq0 <;>
    rcases Nat.eq_zero_or_pos b with hb0 | hb0 <;>
    simp_all [determineAlertLevel, Nat.pos_iff_ne_zero]

/-- C6 witness: the theorem instantiated at counts (1, 2) and (3, 4). -/
theorem c6_witness :
    determineAlertLevel 1 2 = determineAlertLevel 3 4 ∧
    (mkDetectionResult 1 2).alertLevel = determineAlertLevel 1 2 ∧
    (0 < 1 → 0 < 2 → determineAlertLevel 1 2 = AlertLevel.HIGH) ∧
    (0 < 1 → 2 = 0 → determineAlertLevel 1 2 = AlertLevel.CRITICAL) ∧
    (1 = 0 → 0 < 2 → determineAlertLevel 1 2 = AlertLevel.LOW) ∧
    (1 = 0 → 2 = 0 → determineAlertLevel 1 2 = AlertLevel.NONE) :=
  c6_alert_level_pure 1 2 3 4 (by decide) (by decide)

/-- C4 counterexample: `trigger_alarm` called on a freshly constructed
manager, whose state is `DISARMED` (not `ARMED`), moves the state to
`ALARM`, contrary to the claim that it does not from states other than
Armed. -/
theorem c4_counterexample :
    SystemManager.fresh.state = SystemState.DISARMED ∧
    SystemManager.fresh.triggerAlarm.state = SystemState.ALARM :=
  ⟨rfl, rfl⟩

/-- C4 amended (corrected): `trigger_alarm` is not guarded by the `ARMED`
state: it moves the state to `ALARM` from every state (in particular from
`ARMED`, but equally from `DISARMED`, `ALARM` or `ERROR`). -/
theorem c4_trigger_alarm_unguarded (m : SystemManager) :
    m.triggerAlarm.state = SystemState.ALARM :=
  triggerAlarm_state m

/-- C7 (confirmed). `arm` is idempotent: a second call returns success and
changes nothing (so two calls never start two detection loops — at most one
thread is started), and with no usable YOLO detector the system still arms
(success, state `ARMED`) with no detection thread started. -/
theorem c7_arm_idempotent (m : SystemManager) :
    (m.arm).1.arm = ((m.arm).1, true) ∧
    ((m.arm).1.arm).1.detectionThreads ≤ m.detectionThreads + 1 ∧
    (m.yoloLoaded = false →
      (m.arm).2 = true ∧ (m.arm).1.state = SystemState.ARMED ∧
      (m.arm).1.detectionThreads = m.detectionThreads) := by
  have hsecond : (m.arm).1.arm = ((m.arm).1, true) :=
    arm_of_armed (m.arm).1 (arm_state m)
  refine ⟨hsecond, ?_, ?_⟩
  · rw [hsecond]
    exact arm_threads m
  · intro hy
    exact ⟨arm_result m, arm_state m, arm_threads_noYolo m hy⟩

/-- C7 witness: the theorem instantiated at the freshly constructed manager,
whose `yoloLoaded` is `false`. -/
theorem c7_witness :
    (SystemManager.fresh.arm).1.arm = ((SystemManager.fresh.arm).1, true) ∧
    (SystemManager.fresh.arm).2 = true ∧
    (SystemManager.fresh.arm).1.state = SystemState.ARMED ∧
    (SystemManager.fresh.arm).1.detectionThreads =
      SystemManager.fresh.detectionThreads :=
  ⟨(c7_arm_idempotent SystemManager.fresh).1,
   ((c7_arm_idempotent SystemManager.fresh).2.2 rfl).1,
   ((c7_arm_idempotent SystemManager.fresh).2.2 rfl).2.1,
   ((c7_arm_idempotent SystemManager.fresh).2.2 rfl).2.2⟩

/-- C5 (code bug). `stop` never returns normally: `clear_queue` invokes the
misspelled queue method `qszie` (the queue only has `qsize`), so every call
of `stop` raises `AttributeError` before draining the queue or reporting the
final statistics, for every queue content. -/
theorem c5_stop_always_raises (m : AlertManager) :
    (m.stop).2 = Except.error PyError.attributeError := rfl

/-- C10 (confirmed). After `stop()`, a subsequent `start()` does spawn a new
processing thread (the start counter increments), but it never clears the
stop event, so the spawned loop is dead on arrival: any alert enqueued after
the stop/start cycle is never delivered — the consumer loop returns at once
with no deliveries, for every sequence of iteration environments. -/
theorem c10_start_after_stop_dead (m : AlertManager) (level : AlertLevel)
    (msg : String) (fr : Option Nat) (now : Int) (envs : List ProcEnv) :
    ((m.stop).1.start).threadStarts = (m.stop).1.threadStarts + 1 ∧
    ((m.stop).1.start).stopEventSet = true ∧
    ((m.stop).1.start).threadAlive = false ∧
    (((m.stop).1.start).addAlert level msg fr now).procRun envs =
      (((m.stop).1.start).addAlert level msg fr now, []) := by
  have hstop : (m.stop).1 =
      { m with stopEventSet := true, threadAlive := false } := rfl
  have hstart : (m.stop).1.start =
      { m with stopEventSet := true, threadAlive := false
               threadSpawned := true
               threadStarts := m.threadStarts + 1 } := by
    rw [hstop]
    unfold AlertManager.start
    simp
  refine ⟨by rw [hstart, hstop], by rw [hstart], by rw [hstart], ?_⟩
  rw [hstart]
  cases envs with
  | nil => rfl
  | cons e es =>
    unfold AlertManager.procRun AlertManager.addAlert
    simp

/-- C2 (confirmed, fail-closed invariant). In an armed detection-loop
iteration whose frame shows a person: with no face-recognition result
deposited within the 3-second join, the loop escalates using the stage-1
result (`trigger_alarm` fires and `_process_detection` runs, ending in state
`ALARM`); the same happens when a result arrives reporting a non-authorized
person; and `_process_detection` is skipped only when a result arrived in
time and reported an authorized person. -/
theorem c2_fail_closed (m : SystemManager) (c : Nat) (inp : IterInput)
    (fr : Nat)
    (_harmed : m.state = SystemState.ARMED ∨ m.state = SystemState.ALARM)
    (hyolo : m.yoloLoaded = true) (hframe : inp.frame = some fr)
    (hperson : 0 < inp.personCount) :
    (inp.identity = none →
      (m.detectionIter c inp).1.alarmTriggers = m.alarmTriggers + 1 ∧
      (m.detectionIter c inp).1.processDetectionCalls =
        m.processDetectionCalls + 1 ∧
      (m.detectionIter c inp).1.state = SystemState.ALARM) ∧
    (∀ r, inp.identity = some r → r.authorizedPersonDetected = false →
      (m.detectionIter c inp).1.alarmTriggers = m.alarmTriggers + 1 ∧
      (m.detectionIter c inp).1.processDetectionCalls =
        m.processDetectionCalls + 1 ∧
      (m.detectionIter c inp).1.state = SystemState.ALARM) ∧
    ((m.detectionIter c inp).1.processDetectionCalls =
        m.processDetectionCalls →
      ∃ r, inp.identity = some r ∧ r.authorizedPersonDetected = true) :=
  ⟨fun hid => detectionIter_escalates m c inp fr hyolo hframe hperson
      (Or.inl hid),
   fun r hid hauth => detectionIter_escalates m c inp fr hyolo hframe hperson
      (Or.inr ⟨r, hid, hauth⟩),
   fun hskip => detectionIter_suppress m c inp fr hyolo hframe hperson hskip⟩

/-- C2 witness: the armed manager with both detectors, a frame with one
person, and a face-recognition timeout: the iteration escalates. -/
theorem c2_witness :
    armedMgr.state = SystemState.ARMED ∧ armedMgr.yoloLoaded = true ∧
    c2Inp.frame = some 7 ∧ 0 < c2Inp.personCount ∧ c2Inp.identity = none ∧
    ((armedMgr.detectionIter 0 c2Inp).1.alarmTriggers =
        armedMgr.alarmTriggers + 1 ∧
      (armedMgr.detectionIter 0 c2Inp).1.processDetectionCalls =
        armedMgr.processDetectionCalls + 1 ∧
      (armedMgr.detectionIter 0 c2Inp).1.state = SystemState.ALARM) :=
  ⟨rfl, rfl, rfl, by decide, rfl,
   (c2_fail_closed armedMgr 0 c2Inp 7 (Or.inl rfl) rfl rfl (by decide)).1 rfl⟩

/-- C1 counterexample: starting armed, ten consecutive frame timeouts make
the detection loop stop (a later iteration input is ignored), but the state
is left at `ARMED`, not `ERROR`: `get_status` afterwards reports "armed",
contradicting the claim that a caller of `GetStatus` observes state
"error". -/
theorem c1_counterexample :
    armedMgr.detectionRun 0 (tenTimeouts ++ [c2Inp]) = armedMgr ∧
    (armedMgr.detectionRun 0 (tenTimeouts ++ [c2Inp])).getStatusState =
      "armed" ∧
    (armedMgr.detectionRun 0 (tenTimeouts ++ [c2Inp])).getStatusState ≠
      "error" := by
  refine ⟨by decide, by decide, by decide⟩

/-- C1 amended (corrected): when pulling a frame times out for 10
consecutive armed iterations, the detection loop stops — any further
iteration inputs are ignored and the manager is returned unchanged — but no
transition to `Error` happens: `get_status` afterwards still reports
"armed". -/
theorem c1_sustained_timeout_stops_loop (m : SystemManager)
    (rest : List IterInput)
    (h1 : m.state = SystemState.ARMED) (h2 : m.stopEventSet = false) :
    m.detectionRun 0 (tenTimeouts ++ rest) = m ∧
    m.getStatusState = "armed" := by
  constructor
  · simp only [tenTimeouts, List.replicate, List.cons_append, List.nil_append]
    simp [SystemManager.detectionRun, SystemManager.detectionIter, h1, h2]
  · simp [SystemManager.getStatusState, h1, SystemState.value]

/-- C1 amended witness: the armed manager, with one extra input after the
ten timeouts. -/
theorem c1_witness :
    armedMgr.state = SystemState.ARMED ∧ armedMgr.stopEventSet = false ∧
    (armedMgr.detectionRun 0 (tenTimeouts ++ [c2Inp]) = armedMgr ∧
      armedMgr.getStatusState = "armed") :=
  ⟨rfl, rfl, c1_sustained_timeout_stops_loop armedMgr [c2Inp] rfl rfl⟩

/-- `popMax` returns `none` exactly on the empty queue. -/
lemma popMax_eq_none (l : List Alert) : popMax l = none ↔ l = [] := by
  cases l with
  | nil => simp [popMax]
  | cons a t =>
    simp only [popMax]
    cases popMax t with
    | none => simp
    | some p => cases p with | mk b r => dsimp only; split <;> simp

/-- The alert removed by `popMax` has maximal priority among the pending
ones. -/
lemma popMax_max (l : List Alert) (x : Alert) (rest : List Alert)
    (h : popMax l = some (x, rest)) : ∀ b ∈ l, b.priority ≤ x.priority := by
  induction l generalizing x rest with
  | nil => simp [popMax] at h
  | cons a t ih =>
    intro b hb
    rw [popMax] at h
    cases ht : popMax t with
    | none =>
      rw [ht] at h
      have ht' : t = [] := (popMax_eq_none t).mp ht
      subst ht'
      simp at h hb
      obtain ⟨rfl, rfl⟩ := h
      subst hb
      exact le_refl _
    | some p =>
      cases p with
      | mk c r =>
        rw [ht] at h
        dsimp only at h
        by_cases hac : a.priority < c.priority
        · rw [if_pos hac] at h
          obtain ⟨hx, hr⟩ := Prod.mk.injEq .. ▸ (Option.some.injEq .. ▸ h)
          rcases List.mem_cons.mp hb with rfl | hbt
          · subst hx
            omega
          · subst hx
            exact ih c r ht b hbt
        · rw [if_neg hac] at h
          obtain ⟨hx, hr⟩ := Prod.mk.injEq .. ▸ (Option.some.injEq .. ▸ h)
          rcases List.mem_cons.mp hb with rfl | hbt
          · subst hx
            omega
          · subst hx
            have := ih c r ht b hbt
            omega

/-- `popMax` removes exactly one occurrence: the queue is a permutation of
the popped alert consed onto the remainder. -/
lemma popMax_perm (l : List Alert) (x : Alert) (rest : List Alert)
    (h : popMax l = some (x, rest)) : l.Perm (x :: rest) := by
  induction l generalizing x rest with
  | nil => simp [popMax] at h
  | cons a t ih =>
    rw [popMax] at h
    cases ht : popMax t with
    | none =>
      rw [ht] at h
      have ht' : t = [] := (popMax_eq_none t).mp ht
      subst ht'
      simp at h
      obtain ⟨rfl, rfl⟩ := h
      exact List.Perm.refl _
    | some p =>
      cases p with
      | mk c r =>
        rw [ht] at h
        dsimp only at h
        by_cases hac : a.priority < c.priority
        · rw [if_pos hac] at h
          obtain ⟨hx, hr⟩ := Prod.mk.injEq .. ▸ (Option.some.injEq .. ▸ h)
          subst hx
          subst hr
          exact ((ih c r ht).cons a).trans (List.Perm.swap c a r)
        · rw [if_neg hac] at h
          obtain ⟨hx, hr⟩ := Prod.mk.injEq .. ▸ (Option.some.injEq .. ▸ h)
          subst hx
          subst hr
          exact List.Perm.refl _

/-- One consumer-loop step does not change the configured cooldown. -/
lemma procStep_cooldown (m : AlertManager) (e : ProcEnv) :
    (m.procStep e).1.cooldown = m.cooldown := by
  unfold AlertManager.procStep
  cases popMax m.queueItems with
  | none => rfl
  | some p =>
    cases p with
    | mk a rest =>
      dsimp only
      split_ifs <;> rfl

/-- A consumer-loop step with no delivery leaves `last_alert_time`
unchanged. -/
lemma procStep_none_last (m : AlertManager) (e : ProcEnv)
    (h : (m.procStep e).2 = none) :
    (m.procStep e).1.lastAlertTime = m.lastAlertTime := by
  unfold AlertManager.procStep at h ⊢
  cases hq : popMax m.queueItems with
  | none => rfl
  | some p =>
    cases p with
    | mk a rest =>
      rw [hq] at h
      dsimp only at h ⊢
      split_ifs at h ⊢ <;> simp_all

/-- A delivery at a consumer-loop step happens at `sendNow`, records it in
`last_alert_time`, and can only happen when the cooldown had elapsed at the
check time. -/
lemma procStep_some_last (m : AlertManager) (e : ProcEnv)
    (lv : AlertLevel) (t : Int) (h : (m.procStep e).2 = some (lv, t)) :
    t = e.sendNow ∧ (m.procStep e).1.lastAlertTime = some e.sendNow ∧
    (∀ t0, m.lastAlertTime = some t0 → t0 + m.cooldown ≤ e.checkNow) := by
  unfold AlertManager.procStep at h ⊢
  cases hq : popMax m.queueItems with
  | none =>
    rw [hq] at h
    simp at h
  | some p =>
    cases p with
    | mk a rest =>
      rw [hq] at h
      dsimp only at h ⊢
      split_ifs at h ⊢ with hcool htel hok
      simp_all
      intro t0 ht0
      unfold AlertManager.isInCooldown at hcool
      rw [ht0] at hcool
      simp at hcool
      omega

/-- Every run of the consumer loop delivers with at least `cooldown` spacing
between consecutive delivery timestamps, and the first delivery happens at
least `cooldown` after any previously recorded `last_alert_time`. -/
lemma procRun_chain (envs : List ProcEnv) : ∀ (m : AlertManager),
    (∀ e ∈ envs, e.checkNow ≤ e.sendNow) →
    List.Chain' (fun a b : AlertLevel × Int => a.2 + m.cooldown ≤ b.2)
      (m.procRun envs).2 ∧
    (∀ t0 d, m.lastAlertTime = some t0 →
      ((m.procRun envs).2).head? = some d → t0 + m.cooldown ≤ d.2) := by
  induction envs with
  | nil =>
    intro m h
    simp [AlertManager.procRun]
  | cons e es ih =>
    intro m h
    have hmono : e.checkNow ≤ e.sendNow := h e (List.mem_cons_self ..)
    have hes : ∀ x ∈ es, x.checkNow ≤ x.sendNow :=
      fun x hx => h x (List.mem_cons_of_mem _ hx)
    have hcool : (m.procStep e).1.cooldown = m.cooldown := procStep_cooldown m e
    obtain ⟨ihchain, ihhead⟩ := ih (m.procStep e).1 hes
    rw [AlertManager.procRun]
    by_cases hstop : m.stopEventSet = true
    · rw [if_pos hstop]
      simp
    · rw [if_neg hstop]
      dsimp only
      cases hd : (m.procStep e).2 with
      | none =>
        rw [hcool] at ihchain
        constructor
        · exact ihchain
        · intro t0 d ht0 hhead
          have hlast : (m.procStep e).1.lastAlertTime = some t0 := by
            rw [procStep_none_last m e hd, ht0]
          have := ihhead t0 d hlast hhead
          rw [hcool] at this
          exact this
      | some d0 =>
        cases d0 with
        | mk lv t =>
          obtain ⟨hts, hlast, hprev⟩ := procStep_some_last m e lv t hd
          subst hts
          constructor
          · rw [List.chain'_cons']
            constructor
            · intro y hy
              have := ihhead e.sendNow y hlast hy
              rw [hcool] at this
              exact this
            · rw [hcool] at ihchain
              exact ihchain
          · intro t0 d ht0 hhead
            simp only [List.head?_cons, Option.some.injEq] at hhead
            subst hhead
            have h1 := hprev t0 ht0
            have h2 : ((lv, e.sendNow) : AlertLevel × Int).2 = e.sendNow := rfl
            rw [h2]
            omega

/-- C3 (confirmed, cooldown invariant). In every run of the consumer loop
(with each iteration's delivery clock at or after its check clock), no two
successful deliveries have timestamps closer than `cooldown` — the very
first delivery excepted, having no predecessor; moreover an alert dequeued
while within cooldown is put back: that step delivers nothing, leaves the
queue contents unchanged up to order, and sends nothing. -/
theorem c3_cooldown_invariant (m : AlertManager) (envs : List ProcEnv)
    (h : ∀ e ∈ envs, e.checkNow ≤ e.sendNow) :
    List.Chain' (fun a b : AlertLevel × Int => a.2 + m.cooldown ≤ b.2)
      (m.procRun envs).2 ∧
    (∀ (m1 : AlertManager) (e : ProcEnv),
      m1.isInCooldown e.checkNow = true →
      (m1.procStep e).2 = none ∧
      (m1.procStep e).1.queueItems.Perm m1.queueItems ∧
      (m1.procStep e).1.alertsSent = m1.alertsSent) := by
  refine ⟨(procRun_chain envs m h).1, ?_⟩
  intro m1 e hcool
  unfold AlertManager.procStep
  cases hq : popMax m1.queueItems with
  | none => exact ⟨rfl, List.Perm.refl _, rfl⟩
  | some p =>
    cases p with
    | mk x rest =>
      dsimp only
      rw [if_pos hcool]
      exact ⟨rfl,
        (List.perm_append_singleton x rest).trans (popMax_perm _ _ _ hq).symm,
        rfl⟩

/-- C3 witness: a one-iteration run with monotone clocks, and a concrete
in-cooldown step that requeues its alert. -/
theorem c3_witness :
    (∀ e ∈ [c8Env], e.checkNow ≤ e.sendNow) ∧
    c3CoolMgr.isInCooldown c3Env.checkNow = true ∧
    List.Chain'
      (fun a b : AlertLevel × Int => a.2 + c8Manager.cooldown ≤ b.2)
      (c8Manager.procRun [c8Env]).2 ∧
    ((c3CoolMgr.procStep c3Env).2 = none ∧
      (c3CoolMgr.procStep c3Env).1.queueItems.Perm c3CoolMgr.queueItems ∧
      (c3CoolMgr.procStep c3Env).1.alertsSent = c3CoolMgr.alertsSent) :=
  ⟨by decide, by decide,
   (c3_cooldown_invariant c8Manager [c8Env] (by decide)).1,
   (c3_cooldown_invariant c8Manager [c8Env] (by decide)).2 c3CoolMgr c3Env
     (by decide)⟩

/-- C8 (confirmed). The dispatcher delivers by descending severity: the
alert removed from the queue always has maximal priority (the `Level`
ordinal, as stored by the `Alert` constructor) among those pending, and in
the scenario of alerts enqueued with levels LOW, CRITICAL, LOW in that order
with no cooldown pressure, the first delivery is the CRITICAL one. -/
theorem c8_priority_order (q : List Alert) (x : Alert) (rest : List Alert)
    (h : popMax q = some (x, rest)) :
    (∀ b ∈ q, b.priority ≤ x.priority) ∧
    (∀ (lv : AlertLevel) (msg : String) (fr : Option Nat) (now : Int),
      (Alert.make lv msg fr now).priority = lv.value) ∧
    (c8Manager.procRun [c8Env]).2.map Prod.fst = [AlertLevel.CRITICAL] :=
  ⟨popMax_max q x rest h, fun _ _ _ _ => rfl, by decide⟩

/-- C8 witness: the theorem applied to a concrete two-alert queue whose
maximum is the CRITICAL alert. -/
theorem c8_witness :
    popMax [Alert.make .LOW "a" none 0, Alert.make .CRITICAL "p" none 1] =
      some (Alert.make .CRITICAL "p" none 1, [Alert.make .LOW "a" none 0]) ∧
    (∀ b ∈ [Alert.make .LOW "a" none 0, Alert.make .CRITICAL "p" none 1],
      b.priority ≤ (Alert.make .CRITICAL "p" none 1).priority) ∧
    (c8Manager.procRun [c8Env]).2.map Prod.fst = [AlertLevel.CRITICAL] :=
  ⟨by decide,
   (c8_priority_order
     [Alert.make .LOW "a" none 0, Alert.make .CRITICAL "p" none 1]
     (Alert.make .CRITICAL "p" none 1) [Alert.make .LOW "a" none 0]
     (by decide)).1,
   (c8_priority_order
     [Alert.make .LOW "a" none 0, Alert.make .CRITICAL "p" none 1]
     (Alert.make .CRITICAL "p" none 1) [Alert.make .LOW "a" none 0]
     (by decide)).2.2⟩

/-- The probe loop skips an index that is the configured one or fails. -/
lemma probeLoop_skip (env : Nat → Device) (cam : Camera) (i : Nat)
    (rest : List Nat)
    (h : i = cam.cameraIndex ∨ tryCamera env i = false) :
    cam.probeLoop env (i :: rest) = cam.probeLoop env rest := by
  rcases h with h | h
  · simp [Camera.probeLoop, h]
  · by_cases hi : i = cam.cameraIndex
    · simp [Camera.probeLoop, hi]
    · simp [Camera.probeLoop, hi, h]

/-- The probe loop accepts a working non-configured index at the head. -/
lemma probeLoop_hit (env : Nat → Device) (cam : Camera) (i : Nat)
    (rest : List Nat) (h1 : i ≠ cam.cameraIndex)
    (h2 : tryCamera env i = true) :
    cam.probeLoop env (i :: rest) =
      Camera.finalizeStart { cam with cameraIndex := i, captureOpen := true } := by
  simp [Camera.probeLoop, h1, h2]

/-- A failed probe loop means every probed index was the already-tried
configured one or failed. -/
lemma probeLoop_false_all (env : Nat → Device) (cam : Camera) :
    ∀ (l : List Nat), (cam.probeLoop env l).2 = false →
      ∀ i ∈ l, i = cam.cameraIndex ∨ tryCamera env i = false := by
  intro l
  induction l with
  | nil => simp
  | cons j t ih =>
    intro h i hi
    by_cases hj : j = cam.cameraIndex
    · rw [probeLoop_skip env cam j t (Or.inl hj)] at h
      rcases List.mem_cons.mp hi with rfl | hit
      · exact Or.inl hj
      · exact ih h i hit
    · cases htry : tryCamera env j with
      | true =>
        rw [probeLoop_hit env cam j t hj htry] at h
        simp [Camera.finalizeStart] at h
      | false =>
        rw [probeLoop_skip env cam j t (Or.inr htry)] at h
        rcases List.mem_cons.mp hi with rfl | hit
        · exact Or.inr htry
        · exact ih h i hit

/-- C9 (confirmed). `Camera.start` first tries the configured index; when
that fails it probes indices 0..4 skipping the configured one, accepting the
first index that opens and reads a frame and recording it as
`camera_index` (so with the configured index failing and `j` the first
working probe, `start` succeeds with `camera_index = j` — in particular
`j = 2` in the spec's scenario); and it returns failure only when the
configured index and every probed index fail. -/
theorem c9_camera_autodetect (env : Nat → Device) (cam : Camera) (j : Nat)
    (hcfg : tryCamera env cam.cameraIndex = false)
    (hj5 : j < 5) (hjne : j ≠ cam.cameraIndex)
    (hjok : tryCamera env j = true)
    (hfirst : ∀ i, i < j → i ≠ cam.cameraIndex → tryCamera env i = false) :
    ((Camera.start env cam).2 = true ∧
     (Camera.start env cam).1.cameraIndex = j ∧
     (Camera.start env cam).1.threadStarted = true) ∧
    (∀ (env2 : Nat → Device) (cam2 : Camera),
      (Camera.start env2 cam2).2 = false →
      tryCamera env2 cam2.cameraIndex = false ∧
      ∀ i, i < 5 → i ≠ cam2.cameraIndex → tryCamera env2 i = false) := by
  have hskip : ∀ i, i < j → i = cam.cameraIndex ∨ tryCamera env i = false := by
    intro i hij
    by_cases hic : i = cam.cameraIndex
    · exact Or.inl hic
    · exact Or.inr (hfirst i hij hic)
  constructor
  · have hrun : Camera.start env cam =
        Camera.finalizeStart { cam with cameraIndex := j, captureOpen := true } := by
      unfold Camera.start
      rw [if_neg (by simp [hcfg])]
      interval_cases j
      · rw [probeLoop_hit env cam 0 _ hjne hjok]
      · rw [probeLoop_skip env cam 0 _ (hskip 0 (by omega)),
            probeLoop_hit env cam 1 _ hjne hjok]
      · rw [probeLoop_skip env cam 0 _ (hskip 0 (by omega)),
            probeLoop_skip env cam 1 _ (hskip 1 (by omega)),
            probeLoop_hit env cam 2 _ hjne hjok]
      · rw [probeLoop_skip env cam 0 _ (hskip 0 (by omega)),
            probeLoop_skip env cam 1 _ (hskip 1 (by omega)),
            probeLoop_skip env cam 2 _ (hskip 2 (by omega)),
            probeLoop_hit env cam 3 _ hjne hjok]
      · rw [probeLoop_skip env cam 0 _ (hskip 0 (by omega)),
            probeLoop_skip env cam 1 _ (hskip 1 (by omega)),
            probeLoop_skip env cam 2 _ (hskip 2 (by omega)),
            probeLoop_skip env cam 3 _ (hskip 3 (by omega)),
            probeLoop_hit env cam 4 _ hjne hjok]
    rw [hrun]
    exact ⟨rfl, rfl, rfl⟩
  · intro env2 cam2 hfail
    unfold Camera.start at hfail
    by_cases hc : tryCamera env2 cam2.cameraIndex = true
    · rw [if_pos hc] at hfail
      simp [Camera.finalizeStart] at hfail
    · rw [if_neg hc] at hfail
      have hall := probeLoop_false_all env2 cam2 [0, 1, 2, 3, 4] hfail
      refine ⟨by simpa using hc, ?_⟩
      intro i hi5 hine
      have hmem : i ∈ [0, 1, 2, 3, 4] := by interval_cases i <;> simp
      rcases hall i hmem with h | h
      · exact absurd h hine
      · exact h

/-- C9 witness: configured index 0 fails, index 2 is the first working
probe: `start` succeeds with `camera_index = 2`. -/
theorem c9_witness :
    tryCamera c9Env c9Cam.cameraIndex = false ∧ tryCamera c9Env 2 = true ∧
    ((Camera.start c9Env c9Cam).2 = true ∧
     (Camera.start c9Env c9Cam).1.cameraIndex = 2 ∧
     (Camera.start c9Env c9Cam).1.threadStarted = true) :=
  ⟨rfl, rfl,
   (c9_camera_autodetect c9Env c9Cam 2 rfl (by decide) (by decide) rfl
     (by intro i hi hne
         interval_cases i
         · exact absurd rfl hne
         · rfl)).1⟩

end SmartSecurity
